import Mathlib

/-!
Shallow embedding of the Therapy_Bot backend (src/backend/app.py).

Messages are modelled as `List Char` (Python strings are sequences of
characters); Python's substring operator `in` is modelled by `containsSub`,
`str.lower()` by `pyLower`, `str.strip()` by `pyStrip`.  The external
generation collaborator (the Gemini call inside `generate_response`) is
injected as a `GenOutcome` parameter: it either raises or returns a response
whose `.text` is a character list.  The Flask handler `chat` is modelled as a
total function producing a status code and a JSON body; exceptions inside the
`try` block are modelled by `Except PyErr` in `chatTry`, and the outer
`except` clause by the final `match` in `chat`.
-/

/-- Character list of a Lean string literal, used to write message literals. -/
def chars (s : String) : List Char := s.toList

/-- Python `text.lower()` on the ASCII texts this program handles. -/
def pyLower (s : List Char) : List Char := s.map Char.toLower

/-- Python `text.strip()`: drop leading and trailing whitespace. -/
def pyStrip (s : List Char) : List Char :=
  ((s.dropWhile Char.isWhitespace).reverse.dropWhile Char.isWhitespace).reverse

/-- Whether `n` is a leading segment of `h` (helper for substring search). -/
def isPrefixList : List Char → List Char → Bool
  | [], _ => true
  | _ :: _, [] => false
  | n :: ns, h :: hs => n == h && isPrefixList ns hs

/-- Python's substring test `n in h` for strings. -/
def containsSub (n : List Char) : List Char → Bool
  | [] => n.isEmpty
  | h :: hs => isPrefixList n (h :: hs) || containsSub n hs

/-- Propositional form of substring containment: `n` occurs inside `h`. -/
def SubstrOf (n h : List Char) : Prop := ∃ l r, h = l ++ n ++ r

/-- The eight crisis indicator substrings from `is_crisis_message`. -/
def crisis_indicators : List (List Char) :=
  [chars "kill myself", chars "end it all", chars "want to die",
   chars "cut myself", chars "self harm", chars "hurt myself",
   chars "suicide", chars "ending my life"]

/-- `is_crisis_message(text)`: any indicator occurs in the lowercased text. -/
def is_crisis_message (text : List Char) : Bool :=
  crisis_indicators.any (fun ind => containsSub ind (pyLower text))

/-- The three category keywords used to pick the `"suicide"` category. -/
def suicide_keywords : List (List Char) :=
  [chars "suicide", chars "die", chars "end it"]

/-- The category expression `"suicide" if any(word in user_input.lower() for
word in ...) else "self-harm"` from `generate_response` and `chat`. -/
def crisis_type (user_input : List Char) : String :=
  if suicide_keywords.any (fun w => containsSub w (pyLower user_input)) then
    "suicide"
  else
    "self-harm"

/-- One entry of the `CRISIS_RESOURCES` dict. -/
structure CrisisEntry where
  response : List Char
  resources : List (List Char)
deriving DecidableEq

/-- The `CRISIS_RESOURCES` dict; `none` models a `KeyError` lookup. -/
def CRISIS_RESOURCES : String → Option CrisisEntry
  | "suicide" =>
    some ⟨chars "I'm deeply concerned about you. Please call the 988 Suicide & Crisis Lifeline now at 988 (US) or your local emergency number.",
      [chars "988 Suicide & Crisis Lifeline",
       chars "Crisis Text Line: Text HOME to 741741"]⟩
  | "self-harm" =>
    some ⟨chars "Your safety matters. Please reach out to someone you trust or text HOME to 741741 to connect with a crisis counselor.",
      [chars "Crisis Text Line: Text HOME to 741741"]⟩
  | _ => none

/-- Outcome of the external generation collaborator call
(`model.generate_content(...)` followed by reading `response.text`): either
the call raises, or it yields a text. -/
inductive GenOutcome where
  | raises
  | ok (text : List Char)
deriving DecidableEq

/-- The cleanup in `generate_response`: `re.sub(r'\*+', '', text)` deletes
every asterisk, then `.strip()` trims whitespace. -/
def clean_text (t : List Char) : List Char :=
  pyStrip (t.filter (fun c => !(c == '*')))

/-- The fixed fallback text of `generate_response`'s `except` clause. -/
def fallback_text : List Char :=
  chars "I'm having trouble responding. Could you rephrase that or try again later?"

/-- The `try` block of `generate_response`: crisis check, collaborator call,
`raise ValueError` on empty text, cleanup.  `Except.error` models a raised
exception. -/
def try_generate (gen : GenOutcome) (user_input : List Char) :
    Except Unit (List Char) :=
  if is_crisis_message user_input then
    match CRISIS_RESOURCES (crisis_type user_input) with
    | some entry => .ok entry.response
    | none => .error ()
  else
    match gen with
    | .raises => .error ()
    | .ok t => if t.isEmpty then .error () else .ok (clean_text t)

/-- `generate_response(user_input)`: the `try` block with its catch-all
`except` substituting the fixed fallback text. -/
def generate_response (gen : GenOutcome) (user_input : List Char) : List Char :=
  match try_generate gen user_input with
  | .ok r => r
  | .error _ => fallback_text

/-- JSON values, for request bodies and `jsonify` response bodies. -/
inductive Json where
  | null
  | bool (b : Bool)
  | num (n : Int)
  | str (s : List Char)
  | arr (xs : List Json)
  | obj (fields : List (String × Json))

/-- Whether a JSON value is a string. -/
def Json.isStr : Json → Bool
  | .str _ => true
  | _ => false

/-- Exceptions that the body of the `chat` handler can raise in this model:
`.strip()` on a non-string (`AttributeError`) and a failed dict lookup
(`KeyError`). -/
inductive PyErr where
  | attributeError
  | keyError
deriving DecidableEq

/-- Python `value.strip()` applied to the JSON value of the `message` key:
succeeds on strings, raises `AttributeError` otherwise. -/
def pyStripVal : Json → Except PyErr (List Char)
  | .str s => .ok (pyStrip s)
  | _ => .error .attributeError

/-- An inbound request to `/chat`: whether the body is JSON, and the value of
its `message` key when present. -/
structure ChatRequest where
  is_json : Bool
  message : Option Json

/-- The full-shape success body built by `jsonify` at the end of `chat`. -/
def fullBody (resp : List Char) (isC : Bool) (res : List (List Char)) : Json :=
  Json.obj [("response", Json.str resp), ("is_crisis", Json.bool isC),
    ("resources", Json.arr (res.map Json.str)), ("success", Json.bool true)]

/-- The HTTP 500 body of the outer `except` clause of `chat`. -/
def errorBody : Json :=
  Json.obj [("response", Json.str (chars "I'm unable to respond properly right now. Please try again later.")),
    ("success", Json.bool false)]

/-- The `try` block of the `chat` handler: non-JSON check, message
extraction and trim, empty-message early return, crisis classification and
branch.  `Except.error` models an exception escaping this block. -/
def chatTry (gen : GenOutcome) (req : ChatRequest) :
    Except PyErr (Nat × Json) :=
  if req.is_json = false then
    .ok (400, Json.obj [("error", Json.str (chars "JSON input required"))])
  else
    match pyStripVal (req.message.getD (Json.str [])) with
    | .error e => .error e
    | .ok user_input =>
      if user_input.isEmpty then
        .ok (200, Json.obj [("response", Json.str (chars "I'm here when you're ready to talk"))])
      else if is_crisis_message user_input then
        match CRISIS_RESOURCES (crisis_type user_input) with
        | some entry => .ok (200, fullBody entry.response true entry.resources)
        | none => .error .keyError
      else
        .ok (200, fullBody (generate_response gen user_input) false [])

/-- The `chat` handler: the `try` block wrapped by the outer catch-all
`except` clause, which returns HTTP 500 with `errorBody`. -/
def chat (gen : GenOutcome) (req : ChatRequest) : Nat × Json :=
  match chatTry gen req with
  | .ok r => r
  | .error _ => (500, errorBody)

/-- Look up a field of a JSON object. -/
def Json.getField : Json → String → Option Json
  | .obj fs, k => fs.lookup k
  | _, _ => none

/-- View a JSON value as a string. -/
def Json.asStr : Json → Option (List Char)
  | .str s => some s
  | _ => none

/-- Read a string field of a JSON object. -/
def Json.getStrField (j : Json) (k : String) : Option (List Char) :=
  (j.getField k).bind Json.asStr

/-- Read an array-of-strings field of a JSON object. -/
def Json.getArrStrField (j : Json) (k : String) : Option (List (List Char)) :=
  match j.getField k with
  | some (.arr xs) => xs.mapM Json.asStr
  | _ => none

/-- A prefix test succeeds exactly when the needle heads the haystack. -/
theorem isPrefixList_iff (n : List Char) : ∀ h : List Char,
    isPrefixList n h = true ↔ ∃ r, h = n ++ r := by
  induction n with
  | nil => intro h; simp [isPrefixList]
  | cons a as ih =>
    intro h
    cases h with
    | nil =>
      simp [isPrefixList]
    | cons b bs =>
      simp only [isPrefixList, Bool.and_eq_true, beq_iff_eq, ih bs,
        List.cons_append, List.cons.injEq]
      constructor
      · rintro ⟨rfl, r, rfl⟩; exact ⟨r, rfl, rfl⟩
      · rintro ⟨r, rfl, rfl⟩; exact ⟨rfl, r, rfl⟩

/-- The executable substring test agrees with substring containment. -/
theorem containsSub_iff (n : List Char) : ∀ h : List Char,
    containsSub n h = true ↔ SubstrOf n h := by
  intro h
  induction h with
  | nil =>
    simp only [containsSub, SubstrOf, List.isEmpty_iff]
    constructor
    · rintro rfl; exact ⟨[], [], rfl⟩
    · rintro ⟨l, r, hl⟩
      rcases List.append_eq_nil.mp (List.append_eq_nil.mp hl.symm).1 with ⟨-, h2⟩
      · exact h2
    -- helper below fixes associativity if needed
  | cons b bs ih =>
    simp only [containsSub, Bool.or_eq_true, isPrefixList_iff, ih, SubstrOf]
    constructor
    · rintro (⟨r, hr⟩ | ⟨l, r, hr⟩)
      · exact ⟨[], r, by simpa using hr⟩
      · exact ⟨b :: l, r, by simp [hr]⟩
    · rintro ⟨l, r, hr⟩
      cases l with
      | nil => exact Or.inl ⟨r, by simpa using hr⟩
      | cons x xs =>
        rw [List.cons_append, List.cons_append] at hr
        obtain ⟨-, h2⟩ := List.cons.injEq b bs x (xs ++ n ++ r) ▸ hr
        exact Or.inr ⟨xs, r, by simpa using h2⟩

/-- General form of the classifier bridge: the flag is set exactly when some
indicator is a substring of the lowercased message. -/
theorem is_crisis_iff (m : List Char) :
    is_crisis_message m = true ↔
      ∃ ind ∈ crisis_indicators, SubstrOf ind (pyLower m) := by
  simp only [is_crisis_message, List.any_eq_true, containsSub_iff]

/-- General form of the category bridge: the category test fires exactly when
some category keyword is a substring of the lowercased message. -/
theorem suicide_keyword_iff (m : List Char) :
    (suicide_keywords.any fun w => containsSub w (pyLower m)) = true ↔
      ∃ w ∈ suicide_keywords, SubstrOf w (pyLower m) := by
  simp only [List.any_eq_true, containsSub_iff]

/-- The category expression only ever produces the two dict keys, so the
`CRISIS_RESOURCES` lookup always succeeds. -/
theorem crisis_resources_total (u : List Char) :
    ∃ e, CRISIS_RESOURCES (crisis_type u) = some e := by
  unfold crisis_type
  by_cases h : (suicide_keywords.any fun w => containsSub w (pyLower u)) = true
  · rw [if_pos h]; exact ⟨_, rfl⟩
  · rw [if_neg h]; exact ⟨_, rfl⟩

/-- The empty message is never flagged as crisis. -/
theorem is_crisis_nil : is_crisis_message [] = false := by decide

/-- A message flagged as crisis is nonempty. -/
theorem is_crisis_ne_nil (u : List Char) (h : is_crisis_message u = true) :
    u.isEmpty = false := by
  cases hemp : u.isEmpty
  · rfl
  · rw [List.isEmpty_iff] at hemp
    rw [hemp, is_crisis_nil] at h
    cases h

/-- C2: the classifier flags a message as crisis if and only if its
lowercased form contains at least one of the eight fixed indicator
substrings; in particular a message containing none of them is not
flagged. -/
theorem is_crisis_flag_iff_indicators (m : List Char) :
    is_crisis_message m = true ↔
      ∃ ind ∈ crisis_indicators, SubstrOf ind (pyLower m) :=
  is_crisis_iff m

/-- C3: for a flagged message the category is `"suicide"` exactly when the
lowercased message contains one of the keywords `suicide`, `die`, `end it`
(a separate containment check), and the self-harm category otherwise; any
message containing `suicide` is flagged with category `"suicide"`, and any
message containing `cut myself` but no category keyword is flagged with the
self-harm category (the code spells its key `"self-harm"`). -/
theorem crisis_category_rule (m : List Char) :
    (is_crisis_message m = true →
      ((∃ w ∈ suicide_keywords, SubstrOf w (pyLower m)) →
        crisis_type m = "suicide") ∧
      (¬ (∃ w ∈ suicide_keywords, SubstrOf w (pyLower m)) →
        crisis_type m = "self-harm")) ∧
    (SubstrOf (chars "suicide") (pyLower m) →
      is_crisis_message m = true ∧ crisis_type m = "suicide") ∧
    (SubstrOf (chars "cut myself") (pyLower m) →
      ¬ (∃ w ∈ suicide_keywords, SubstrOf w (pyLower m)) →
      is_crisis_message m = true ∧ crisis_type m = "self-harm") := by
  refine ⟨fun _ => ⟨?_, ?_⟩, ?_, ?_⟩
  · intro hex
    unfold crisis_type
    rw [if_pos ((suicide_keyword_iff m).mpr hex)]
  · intro hnex
    unfold crisis_type
    rw [if_neg (fun hb => hnex ((suicide_keyword_iff m).mp hb))]
  · intro hs
    refine ⟨(is_crisis_iff m).mpr ⟨chars "suicide", by decide, hs⟩, ?_⟩
    unfold crisis_type
    rw [if_pos ((suicide_keyword_iff m).mpr ⟨chars "suicide", by decide, hs⟩)]
  · intro hs hnex
    refine ⟨(is_crisis_iff m).mpr ⟨chars "cut myself", by decide, hs⟩, ?_⟩
    unfold crisis_type
    rw [if_neg (fun hb => hnex ((suicide_keyword_iff m).mp hb))]

/-- C3 witness: `"I keep wanting to cut myself"` is flagged and categorised
as self-harm. -/
theorem crisis_category_rule_witness :
    is_crisis_message (chars "I keep wanting to cut myself") = true ∧
    crisis_type (chars "I keep wanting to cut myself") = "self-harm" := by
  have h := crisis_category_rule (chars "I keep wanting to cut myself")
  have hcut : SubstrOf (chars "cut myself")
      (pyLower (chars "I keep wanting to cut myself")) :=
    (containsSub_iff (chars "cut myself") _).mp (by decide)
  have hno : ¬ (∃ w ∈ suicide_keywords,
      SubstrOf w (pyLower (chars "I keep wanting to cut myself"))) := by
    rintro ⟨w, hw, hs⟩
    have hb := (containsSub_iff w _).mpr hs
    simp only [suicide_keywords, List.mem_cons, List.not_mem_nil,
      or_false] at hw
    rcases hw with rfl | rfl | rfl <;> revert hb <;> decide
  exact h.2.2 hcut hno

/-- C4: a request whose message trims to the empty string gets HTTP 200 with
a body holding only the fixed `response` field, independently of the
generation collaborator outcome (so the collaborator is not consulted). -/
theorem empty_message_reply (gen : GenOutcome) (s : List Char)
    (h : pyStrip s = []) :
    chat gen { is_json := true, message := some (Json.str s) } =
      (200, Json.obj [("response", Json.str (chars "I'm here when you're ready to talk"))]) := by
  simp [chat, chatTry, pyStripVal, h]

/-- C4 witness: a whitespace-only message gets the fixed reply. -/
theorem empty_message_reply_witness :
    chat GenOutcome.raises { is_json := true, message := some (Json.str (chars "   ")) } =
      (200, Json.obj [("response", Json.str (chars "I'm here when you're ready to talk"))]) :=
  empty_message_reply GenOutcome.raises (chars "   ") (by decide)

/-- C5: every crisis-flagged message gets HTTP 200 with exactly the crisis
table entry for the computed category (its response text, `is_crisis=true`,
its resource list, `success=true`); the reply does not depend on the
generation collaborator outcome, so the collaborator is never invoked on
this path. -/
theorem crisis_path_reply (gen : GenOutcome) (s : List Char)
    (h : is_crisis_message (pyStrip s) = true) :
    ∃ e, CRISIS_RESOURCES (crisis_type (pyStrip s)) = some e ∧
      chat gen { is_json := true, message := some (Json.str s) } =
        (200, fullBody e.response true e.resources) := by
  obtain ⟨e, he⟩ := crisis_resources_total (pyStrip s)
  refine ⟨e, he, ?_⟩
  have hne := is_crisis_ne_nil (pyStrip s) h
  simp [chat, chatTry, pyStripVal, hne, h, he]

/-- C5 witness: a message mentioning suicide gets the suicide table entry. -/
theorem crisis_path_reply_witness :
    ∃ e, CRISIS_RESOURCES (crisis_type (pyStrip (chars "I think about suicide"))) = some e ∧
      chat GenOutcome.raises { is_json := true, message := some (Json.str (chars "I think about suicide")) } =
        (200, fullBody e.response true e.resources) :=
  crisis_path_reply GenOutcome.raises (chars "I think about suicide") (by decide)

/-- C6 counterexample: for the non-crisis message `"hello"`, a blank
(whitespace-only, non-empty) collaborator result is not replaced by the
fallback text: the reply's `response` field is the empty string, which
differs from the fallback text. -/
theorem blank_generation_not_fallback :
    Json.getStrField (chat (GenOutcome.ok (chars " ")) { is_json := true, message := some (Json.str (chars "hello")) }).2 "response" =
      some ([] : List Char) ∧
    ([] : List Char) ≠ fallback_text :=
  ⟨by decide, by decide⟩

/-- C6 (amended): for a non-crisis message, when the collaborator raises or
returns the empty text, the handler returns HTTP 200 with the fixed fallback
text, `is_crisis=false`, empty resources and `success=true`; the failure is
never surfaced as an error. -/
theorem generation_failure_fallback (gen : GenOutcome) (s : List Char)
    (hnc : is_crisis_message (pyStrip s) = false) (hne : pyStrip s ≠ [])
    (hfail : gen = GenOutcome.raises ∨ gen = GenOutcome.ok []) :
    chat gen { is_json := true, message := some (Json.str s) } =
      (200, fullBody fallback_text false []) := by
  have hgen : generate_response gen (pyStrip s) = fallback_text := by
    rcases hfail with rfl | rfl <;>
      simp [generate_response, try_generate, hnc]
  have hne2 : (pyStrip s).isEmpty = false := by
    cases hemp : (pyStrip s).isEmpty
    · rfl
    · exact absurd (List.isEmpty_iff.mp hemp) hne
  simp [chat, chatTry, pyStripVal, hne2, hnc, hgen]

/-- C6 witness: collaborator raising on `"hello"` yields the fallback
reply. -/
theorem generation_failure_fallback_witness :
    chat GenOutcome.raises { is_json := true, message := some (Json.str (chars "hello")) } =
      (200, fullBody fallback_text false []) :=
  generation_failure_fallback GenOutcome.raises (chars "hello") (by decide)
    (by decide) (Or.inl rfl)

/-- C7: whenever an exception escapes the dispatcher logic inside the `chat`
handler (the `try` block fails), the handler returns HTTP 500 with the fixed
error body `{response, success=false}`; `chat` is total, so no exception
propagates to the caller. -/
theorem unhandled_error_500 (gen : GenOutcome) (req : ChatRequest)
    (e : PyErr) (h : chatTry gen req = Except.error e) :
    chat gen req = (500, errorBody) := by
  simp [chat, h]

/-- C7 witness: a non-string message value raises inside the `try` block and
produces the HTTP 500 error body. -/
theorem unhandled_error_500_witness :
    chat GenOutcome.raises { is_json := true, message := some (Json.num 3) } =
      (500, errorBody) :=
  unhandled_error_500 GenOutcome.raises
    { is_json := true, message := some (Json.num 3) } PyErr.attributeError rfl

/-- C8: the classifier (flag and category) is deterministic - equal inputs
give equal verdicts; in this embedding it is a pure function, so it has no
side effects or hidden state by construction. -/
theorem classify_deterministic (m₁ m₂ : List Char) (h : m₁ = m₂) :
    (is_crisis_message m₁, crisis_type m₁) =
      (is_crisis_message m₂, crisis_type m₂) := by
  rw [h]

/-- C8 witness: the verdict on `"hello"` agrees with itself. -/
theorem classify_deterministic_witness :
    (is_crisis_message (chars "hello"), crisis_type (chars "hello")) =
      (is_crisis_message (chars "hello"), crisis_type (chars "hello")) :=
  classify_deterministic (chars "hello") (chars "hello") rfl

/-- C9: every non-empty non-crisis message gets the full-shape HTTP 200
reply with `is_crisis=false`, empty resources and `success=true`, whatever
the collaborator outcome (including failures substituted by the fallback
text); resources are non-empty only on the crisis path. -/
theorem noncrisis_reply_shape (gen : GenOutcome) (s : List Char)
    (hne : pyStrip s ≠ []) (hnc : is_crisis_message (pyStrip s) = false) :
    chat gen { is_json := true, message := some (Json.str s) } =
      (200, fullBody (generate_response gen (pyStrip s)) false []) := by
  have hne2 : (pyStrip s).isEmpty = false := by
    cases hemp : (pyStrip s).isEmpty
    · rfl
    · exact absurd (List.isEmpty_iff.mp hemp) hne
  simp [chat, chatTry, pyStripVal, hne2, hnc]

/-- C9 witness: a successful generation on `"I feel sad"` yields the
full-shape non-crisis reply. -/
theorem noncrisis_reply_shape_witness :
    chat (GenOutcome.ok (chars "That sounds hard.")) { is_json := true, message := some (Json.str (chars "I feel sad")) } =
      (200, fullBody (generate_response (GenOutcome.ok (chars "That sounds hard.")) (pyStrip (chars "I feel sad"))) false []) :=
  noncrisis_reply_shape (GenOutcome.ok (chars "That sounds hard."))
    (chars "I feel sad") (by decide) (by decide)

/-- C10: a JSON request whose `message` value is present but not a string
makes `.strip()` raise, so the handler answers through the catch-all path
with HTTP 500 and `success=false`, not HTTP 400. -/
theorem nonstring_message_500 (gen : GenOutcome) (v : Json)
    (h : Json.isStr v = false) :
    chat gen { is_json := true, message := some v } = (500, errorBody) := by
  cases v with
  | str s => simp [Json.isStr] at h
  | null => simp [chat, chatTry, pyStripVal]
  | bool b => simp [chat, chatTry, pyStripVal]
  | num n => simp [chat, chatTry, pyStripVal]
  | arr xs => simp [chat, chatTry, pyStripVal]
  | obj fs => simp [chat, chatTry, pyStripVal]

/-- C10 witness: a numeric `message` value gets HTTP 500 with the error
body. -/
theorem nonstring_message_500_witness :
    chat GenOutcome.raises { is_json := true, message := some (Json.num 7) } =
      (500, errorBody) :=
  nonstring_message_500 GenOutcome.raises (Json.num 7) rfl

/-- C1 counterexample: on `"I want to kill myself"` the handler returns the
self-harm table entry, whose response text and resource list differ from the
suicide entry claimed by the spec example ("I want to kill myself" contains
none of the category keywords `suicide`, `die`, `end it`). -/
theorem kill_myself_not_suicide_reply :
    Json.getStrField (chat GenOutcome.raises { is_json := true, message := some (Json.str (chars "I want to kill myself")) }).2 "response" =
      some (chars "Your safety matters. Please reach out to someone you trust or text HOME to 741741 to connect with a crisis counselor.") ∧
    Json.getArrStrField (chat GenOutcome.raises { is_json := true, message := some (Json.str (chars "I want to kill myself")) }).2 "resources" =
      some [chars "Crisis Text Line: Text HOME to 741741"] ∧
    some [chars "Crisis Text Line: Text HOME to 741741"] ≠
      some [chars "988 Suicide & Crisis Lifeline", chars "Crisis Text Line: Text HOME to 741741"] ∧
    some (chars "Your safety matters. Please reach out to someone you trust or text HOME to 741741 to connect with a crisis counselor.") ≠
      some (chars "I'm deeply concerned about you. Please call the 988 Suicide & Crisis Lifeline now at 988 (US) or your local emergency number.") :=
  ⟨by decide, by decide, by decide, by decide⟩

/-- C1 (amended): for the input `"I want to kill myself"` the handler
returns the self-harm crisis entry: its response text, `is_crisis=true`,
resources `["Crisis Text Line: Text HOME to 741741"]`, `success=true` -
whatever the collaborator outcome. -/
theorem kill_myself_selfharm_reply (gen : GenOutcome) :
    chat gen { is_json := true, message := some (Json.str (chars "I want to kill myself")) } =
      (200, fullBody (chars "Your safety matters. Please reach out to someone you trust or text HOME to 741741 to connect with a crisis counselor.")
        true [chars "Crisis Text Line: Text HOME to 741741"]) :=
  rfl
